import Mathlib

/-!
Verification of the borg-timemachine backup-cycle orchestrator.

The Rust library (src/lib.rs) drives an external archiver through its CLI:
`run_backup_cycle` acquires a lock-marker file, opens a log, runs the four
stages create / prune / compact / check as subprocesses, interprets their
exit codes, logs progress, dispatches a failure notification and removes
the lock marker.

The shallow embedding below mirrors that code.  Effects are made explicit:
`SysState` records the lock marker, the log, the trace of attempted
subprocess invocations and the trace of notification-dispatcher calls;
`Env` fixes everything the outside world decides (hostname, current time,
weekday, and the outcome of each subprocess spawn).  Every function is a
direct transcription of the Rust function of the same name.
-/

namespace Borg

/-- Local wall-clock time, the data `chrono::Local::now()` provides. -/
structure LocalTime where
  year : Nat
  month : Nat
  day : Nat
  hour : Nat
  minute : Nat
  second : Nat
deriving DecidableEq, Repr

/-- Outcome of one `Command::status()` call: either the spawn itself failed
(`spawnErr`, the executable could not be launched), or the child ran and
`status.code()` returned `some code` (normal exit) or `none` (killed by a
signal). -/
inductive SpawnOutcome where
  | spawnErr (msg : String)
  | completed (code : Option Int)
deriving DecidableEq, Repr

/-- `repository` section of the configuration. -/
structure Repository where
  path : String
  encryption : String
deriving DecidableEq, Repr

/-- One backup job (`jobs` list entry). -/
structure BackupJob where
  name : String
  source : String
  destination : String
  enabled : Bool
  exclude : List String
deriving DecidableEq, Repr

/-- `options` section: the four boolean flags for `borg create`. -/
structure Options where
  one_file_system : Bool
  exclude_caches : Bool
  show_progress : Bool
  show_stats : Bool
deriving DecidableEq, Repr

/-- `retention` section: the six retention knobs. -/
structure Retention where
  within : String
  hourly : Nat
  daily : Nat
  weekly : Nat
  monthly : Nat
  yearly : Nat
deriving DecidableEq, Repr

/-- `notifications` section. -/
structure Notifications where
  enabled : Bool
  email : String
deriving DecidableEq, Repr

/-- `logging` section: log-file and lock-file paths. -/
structure Logging where
  log_file : String
  lock_file : String
deriving DecidableEq, Repr

/-- `maintenance` section: weekly check day (0 = never, 1..7 = ISO weekday)
and the auto-compact switch. -/
structure Maintenance where
  check_day : Nat
  auto_compact : Bool
deriving DecidableEq, Repr

/-- `security` section. -/
structure Security where
  passphrase_file : String
deriving DecidableEq, Repr

/-- The full configuration record, mirroring `Config` in src/lib.rs. -/
structure Config where
  repository : Repository
  jobs : List BackupJob
  exclusions : List String
  compression : String
  options : Options
  retention : Retention
  notifications : Notifications
  logging : Logging
  maintenance : Maintenance
  security : Security
deriving DecidableEq, Repr

/-- One attempted subprocess invocation: program, argument list and the
text piped to the child's stdin (used only by the mail notification). -/
structure Invocation where
  program : String
  args : List String
  piped : Option String
deriving DecidableEq, Repr

/-- Everything the environment decides during one `run_backup_cycle` call:
the orchestrator's hostname, the current local time and weekday, whether
filesystem operations succeed, and the outcome of each subprocess spawn. -/
structure Env where
  hostname : String
  now : LocalTime
  daysFromMonday : Fin 7
  openLogErr : Option String
  createLockErr : Option String
  createOutcome : SpawnOutcome
  pruneOutcome : SpawnOutcome
  compactOutcome : SpawnOutcome
  checkOutcome : SpawnOutcome
  mailOutcome : SpawnOutcome
deriving DecidableEq, Repr

/-- Observable system state: existence of the lock marker, whether the log
handle is open, the log lines written so far (message text of each `log`
call), the trace of attempted subprocess invocations, the trace of
arguments passed to `send_failure_notification` (ghost event trace used to
observe that the dispatcher was called even when notifications are
disabled), and a ghost counter of `remove_lock` calls. -/
structure SysState where
  lockExists : Bool
  logOpen : Bool
  logLines : List String
  invocations : List Invocation
  notifyCalls : List String
  lockRemovals : Nat
deriving DecidableEq, Repr

/-- Zero-pad to two digits, as chrono's `%m`, `%d`, `%H`, `%M`, `%S` do. -/
def pad2 (n : Nat) : String :=
  if n < 10 then "0" ++ toString n else toString n

/-- Zero-pad to four digits, as chrono's `%Y` does for years 0..9999. -/
def pad4 (n : Nat) : String :=
  if n < 10 then "000" ++ toString n
  else if n < 100 then "00" ++ toString n
  else if n < 1000 then "0" ++ toString n
  else toString n

/-- The archive timestamp `Local::now().format("%Y-%m-%d-%H%M%S")`. -/
def fmtTimestamp (t : LocalTime) : String :=
  pad4 t.year ++ "-" ++ pad2 t.month ++ "-" ++ pad2 t.day ++ "-" ++
    pad2 t.hour ++ pad2 t.minute ++ pad2 t.second

/-- `self.log(message)`: echo to stdout and append to the log file.  The
model keeps the message text of every `log` call. -/
def log (msg : String) (s : SysState) : SysState :=
  { s with logLines := s.logLines ++ [msg] }

/-- Record one attempted subprocess invocation (`Command::status()` or
`Command::spawn()`). -/
def spawn (inv : Invocation) (s : SysState) : SysState :=
  { s with invocations := s.invocations ++ [inv] }

/-- `check_lock`: fail if the lock-marker file exists. -/
def check_lock (cfg : Config) (s : SysState) : Except String Unit :=
  if s.lockExists then
    .error ("Lock file exists at " ++ cfg.logging.lock_file ++
      ". Another backup may be running.")
  else
    .ok ()

/-- `create_lock`: `fs::write(lock_file, "")`; `Env.createLockErr` decides
whether the write succeeds. -/
def create_lock (env : Env) (s : SysState) : Except String Unit × SysState :=
  match env.createLockErr with
  | some e => (.error ("Failed to create lock file: " ++ e), s)
  | none => (.ok (), { s with lockExists := true })

/-- `remove_lock`: `let _ = fs::remove_file(lock_file)`; removal errors are
ignored.  The ghost counter records that the call happened. -/
def remove_lock (s : SysState) : SysState :=
  { s with lockExists := false, lockRemovals := s.lockRemovals + 1 }

/-- `open_log`: open the log file with create/append semantics;
`Env.openLogErr` decides whether the open succeeds. -/
def open_log (env : Env) (s : SysState) : Except String Unit × SysState :=
  match env.openLogErr with
  | some e => (.error ("Failed to open log file: " ++ e), s)
  | none => (.ok (), { s with logOpen := true })

/-- Archive name built in `create_backup`:
`format!("{}-{}", hostname, Local::now().format("%Y-%m-%d-%H%M%S"))`. -/
def archiveName (env : Env) : String :=
  env.hostname ++ "-" ++ fmtTimestamp env.now

/-- The arguments one job contributes to `borg create`: for an enabled job
its source path followed by one `--exclude <pattern>` pair per job-local
exclusion; nothing for a disabled job. -/
def jobArgs (j : BackupJob) : List String :=
  if j.enabled then
    j.source :: (j.exclude.map (fun p => ["--exclude", p])).flatten
  else
    []

/-- The `borg create` argument list, transcribed from `create_backup`:
option flags in the source's fixed order, `--compression=<codec>`, global
exclusions, the `repo::archive` target, then each job's contribution in
job-list order. -/
def createArgs (cfg : Config) (archivePath : String) : List String :=
  ["create"]
    ++ (if cfg.options.show_stats then ["--stats"] else [])
    ++ (if cfg.options.show_progress then ["--progress"] else [])
    ++ (if cfg.options.one_file_system then ["--one-file-system"] else [])
    ++ (if cfg.options.exclude_caches then ["--exclude-caches"] else [])
    ++ ["--compression=" ++ cfg.compression]
    ++ (cfg.exclusions.map (fun p => ["--exclude", p])).flatten
    ++ [archivePath]
    ++ (cfg.jobs.map jobArgs).flatten

/-- `status.code().unwrap_or(2)`: a signal-terminated child counts as exit
code 2. -/
def exitCodeOf (st : Option Int) : Int :=
  st.getD 2

/-- `create_backup`: log the start line, run `borg create` with the built
argument list, then interpret the exit code (0 = success line, 1 = warning
line, otherwise error). -/
def create_backup (env : Env) (cfg : Config) (s : SysState) :
    Except String Unit × SysState :=
  let name := archiveName env
  let s := log ("Starting backup: " ++ name) s
  let archivePath := cfg.repository.path ++ "::" ++ name
  let s := spawn ⟨"borg", createArgs cfg archivePath, none⟩ s
  match env.createOutcome with
  | .spawnErr e => (.error ("Failed to run borg create: " ++ e), s)
  | .completed st =>
    let exit_code := exitCodeOf st
    if 2 ≤ exit_code then
      (.error ("borg create failed with exit code " ++ toString exit_code), s)
    else if exit_code = 1 then
      (.ok (),
        log "Backup created with warnings (some files may have been skipped)" s)
    else
      (.ok (), log "Backup created successfully" s)

/-- The `borg prune` argument list built in `prune_backups`. -/
def pruneArgs (env : Env) (cfg : Config) : List String :=
  ["prune", "--list",
   "--prefix=" ++ env.hostname ++ "-",
   "--keep-within=" ++ cfg.retention.within,
   "--keep-hourly=" ++ toString cfg.retention.hourly,
   "--keep-daily=" ++ toString cfg.retention.daily,
   "--keep-weekly=" ++ toString cfg.retention.weekly,
   "--keep-monthly=" ++ toString cfg.retention.monthly,
   "--keep-yearly=" ++ toString cfg.retention.yearly,
   cfg.repository.path]

/-- `prune_backups`: log, run `borg prune`, interpret the exit code. -/
def prune_backups (env : Env) (cfg : Config) (s : SysState) :
    Except String Unit × SysState :=
  let s := log "Pruning old backups..." s
  let s := spawn ⟨"borg", pruneArgs env cfg, none⟩ s
  match env.pruneOutcome with
  | .spawnErr e => (.error ("Failed to run borg prune: " ++ e), s)
  | .completed st =>
    let exit_code := exitCodeOf st
    if 2 ≤ exit_code then
      (.error ("borg prune failed with exit code " ++ toString exit_code), s)
    else
      (.ok (), log "Prune completed" s)

/-- `compact_repository`: a config-gated no-op when `auto_compact` is
false; otherwise log, run `borg compact`, interpret the exit code. -/
def compact_repository (env : Env) (cfg : Config) (s : SysState) :
    Except String Unit × SysState :=
  if !cfg.maintenance.auto_compact then
    (.ok (), s)
  else
    let s := log "Compacting repository..." s
    let s := spawn ⟨"borg", ["compact", cfg.repository.path], none⟩ s
    match env.compactOutcome with
    | .spawnErr e => (.error ("Failed to run borg compact: " ++ e), s)
    | .completed st =>
      let exit_code := exitCodeOf st
      if 2 ≤ exit_code then
        (.error ("borg compact failed with exit code " ++ toString exit_code), s)
      else
        (.ok (), log "Compact completed" s)

/-- `Local::now().weekday().num_days_from_monday() + 1`: today's ISO
weekday, 1 = Monday .. 7 = Sunday. -/
def today (env : Env) : Nat :=
  env.daysFromMonday.val + 1

/-- `check_repository`: return Ok without running anything unless today is
the configured check day; otherwise log, run `borg check`, interpret the
exit code. -/
def check_repository (env : Env) (cfg : Config) (s : SysState) :
    Except String Unit × SysState :=
  if cfg.maintenance.check_day = 0 ∨ today env ≠ cfg.maintenance.check_day then
    (.ok (), s)
  else
    let s := log "Running weekly integrity check..." s
    let s := spawn ⟨"borg", ["check", cfg.repository.path], none⟩ s
    match env.checkOutcome with
    | .spawnErr e => (.error ("Failed to run borg check: " ++ e), s)
    | .completed st =>
      let exit_code := exitCodeOf st
      if 2 ≤ exit_code then
        (.error ("Repository integrity check failed with exit code " ++
          toString exit_code), s)
      else
        (.ok (), log "Integrity check passed" s)

/-- `send_failure_notification`: a no-op when notifications are disabled;
otherwise pipe the failure body into a `mail` subprocess, ignoring every
error.  The ghost `notifyCalls` trace records the call itself. -/
def send_failure_notification (env : Env) (cfg : Config) (error : String)
    (s : SysState) : SysState :=
  let s := { s with notifyCalls := s.notifyCalls ++ [error] }
  if !cfg.notifications.enabled then
    s
  else
    let subject := "Backup Failure on " ++ env.hostname
    let body := "Borg backup failed: " ++ error
    spawn ⟨"mail", ["-s", subject, cfg.notifications.email], some body⟩ s

/-- Rust's `?` operator on a `(Result, state)` pair: stop on error,
continue with the updated state on success. -/
def andThen (r : Except String Unit × SysState)
    (f : SysState → Except String Unit × SysState) :
    Except String Unit × SysState :=
  match r with
  | (.error e, s) => (.error e, s)
  | (.ok _, s) => f s

/-- `run_backup_cycle_inner`: open the log, then create, prune, compact,
check in order, each chained with `?`, then log the completion line. -/
def run_backup_cycle_inner (env : Env) (cfg : Config) (s : SysState) :
    Except String Unit × SysState :=
  andThen (open_log env s) fun s =>
  andThen (create_backup env cfg s) fun s =>
  andThen (prune_backups env cfg s) fun s =>
  andThen (compact_repository env cfg s) fun s =>
  andThen (check_repository env cfg s) fun s =>
  (.ok (), log "Backup cycle complete" s)

/-- `run_backup_cycle`: check and create the lock marker, run the inner
cycle, on failure log the `ERROR:` line and dispatch the notification,
then always remove the lock and return the inner result. -/
def run_backup_cycle (env : Env) (cfg : Config) (s : SysState) :
    Except String Unit × SysState :=
  match check_lock cfg s with
  | .error e => (.error e, s)
  | .ok _ =>
    match create_lock env s with
    | (.error e, s) => (.error e, s)
    | (.ok _, s) =>
      let r := run_backup_cycle_inner env cfg s
      let t :=
        match r.1 with
        | .error e =>
          send_failure_notification env cfg e (log ("ERROR: " ++ e) r.2)
        | .ok _ => r.2
      (r.1, remove_lock t)

/-- Boolean string-prefix test over the character lists, so that concrete
instances reduce inside the kernel. -/
def strStartsWith (pre s : String) : Bool :=
  List.isPrefixOf pre.toList s.toList

/-- A log line reporting a cycle failure, as written by `run_backup_cycle`:
a line starting with the text `ERROR: `. -/
def isERRORLine (l : String) : Bool :=
  strStartsWith "ERROR: " l

lemma isPrefixOf_append_of_le (p a b : List Char) (h : p.length ≤ a.length) :
    List.isPrefixOf p (a ++ b) = List.isPrefixOf p a := by
  induction p generalizing a with
  | nil => simp [List.isPrefixOf]
  | cons x xs ih =>
    cases a with
    | nil => simp at h
    | cons y ys =>
      simp only [List.cons_append, List.isPrefixOf]
      rw [show ys.append b = ys ++ b from rfl, ih ys (Nat.le_of_succ_le_succ h)]

lemma isERRORLine_starting (n : String) :
    isERRORLine ("Starting backup: " ++ n) = false := by
  unfold isERRORLine strStartsWith
  have h : ("Starting backup: " ++ n).toList =
      "Starting backup: ".toList ++ n.toList := by
    simp [String.toList, String.data_append]
  rw [h, isPrefixOf_append_of_le _ _ _ (by decide)]
  decide

/-- Frame relation for everything the inner cycle stages may do to the
state: the lock marker, the removal counter and the dispatcher trace are
untouched, the log grows only by lines that are not `ERROR:` lines, and
the invocation trace grows only by `borg` invocations. -/
def StageStep (s t : SysState) : Prop :=
  t.lockExists = s.lockExists ∧
  t.lockRemovals = s.lockRemovals ∧
  t.notifyCalls = s.notifyCalls ∧
  (∃ ls, t.logLines = s.logLines ++ ls ∧ ls.countP (fun l => isERRORLine l) = 0) ∧
  (∃ invs, t.invocations = s.invocations ++ invs ∧
    ∀ i ∈ invs, i.program = "borg")

lemma StageStep.refl (s : SysState) : StageStep s s :=
  ⟨rfl, rfl, rfl, ⟨[], by simp, rfl⟩, ⟨[], by simp, by simp⟩⟩

lemma StageStep.trans {s t u : SysState} (h1 : StageStep s t)
    (h2 : StageStep t u) : StageStep s u := by
  obtain ⟨e1, r1, n1, ⟨ls1, hl1, hc1⟩, ⟨iv1, hi1, hp1⟩⟩ := h1
  obtain ⟨e2, r2, n2, ⟨ls2, hl2, hc2⟩, ⟨iv2, hi2, hp2⟩⟩ := h2
  refine ⟨e2.trans e1, r2.trans r1, n2.trans n1, ⟨ls1 ++ ls2, ?_, ?_⟩,
    ⟨iv1 ++ iv2, ?_, ?_⟩⟩
  · rw [hl2, hl1, List.append_assoc]
  · rw [List.countP_append, hc1, hc2]
  · rw [hi2, hi1, List.append_assoc]
  · intro i hi
    rcases List.mem_append.1 hi with h | h
    · exact hp1 i h
    · exact hp2 i h

lemma stageStep_log (msg : String) (s : SysState)
    (h : isERRORLine msg = false) : StageStep s (log msg s) :=
  ⟨rfl, rfl, rfl, ⟨[msg], rfl, by simp [h]⟩, ⟨[], by simp [log], by simp⟩⟩

lemma stageStep_spawn (args : List String) (piped : Option String)
    (s : SysState) : StageStep s (spawn ⟨"borg", args, piped⟩ s) :=
  ⟨rfl, rfl, rfl, ⟨[], by simp [spawn], rfl⟩,
    ⟨[⟨"borg", args, piped⟩], rfl, by simp⟩⟩

lemma stageStep_open_log (env : Env) (s : SysState) :
    StageStep s ((open_log env s).2) := by
  unfold open_log
  cases env.createLockErr <;> cases h : env.openLogErr <;>
    exact ⟨rfl, rfl, rfl, ⟨[], by simp, rfl⟩, ⟨[], by simp, by simp⟩⟩

lemma stageStep_create_backup (env : Env) (cfg : Config) (s : SysState) :
    StageStep s ((create_backup env cfg s).2) := by
  unfold create_backup
  have hstart := stageStep_log ("Starting backup: " ++ archiveName env) s
    (isERRORLine_starting _)
  have hsp := stageStep_spawn
    (createArgs cfg (cfg.repository.path ++ "::" ++ archiveName env)) none
    (log ("Starting backup: " ++ archiveName env) s)
  have hbase := hstart.trans hsp
  cases env.createOutcome with
  | spawnErr e => exact hbase
  | completed st =>
    dsimp only
    split
    · exact hbase
    · split
      · exact hbase.trans (stageStep_log _ _ (by decide))
      · exact hbase.trans (stageStep_log _ _ (by decide))

lemma stageStep_prune_backups (env : Env) (cfg : Config) (s : SysState) :
    StageStep s ((prune_backups env cfg s).2) := by
  unfold prune_backups
  have hbase := (stageStep_log "Pruning old backups..." s (by decide)).trans
    (stageStep_spawn (pruneArgs env cfg) none _)
  cases env.pruneOutcome with
  | spawnErr e => exact hbase
  | completed st =>
    dsimp only
    split
    · exact hbase
    · exact hbase.trans (stageStep_log _ _ (by decide))

lemma stageStep_compact_repository (env : Env) (cfg : Config) (s : SysState) :
    StageStep s ((compact_repository env cfg s).2) := by
  unfold compact_repository
  split
  · exact StageStep.refl s
  · have hbase := (stageStep_log "Compacting repository..." s (by decide)).trans
      (stageStep_spawn ["compact", cfg.repository.path] none _)
    cases env.compactOutcome with
    | spawnErr e => exact hbase
    | completed st =>
      dsimp only
      split
      · exact hbase
      · exact hbase.trans (stageStep_log _ _ (by decide))

lemma stageStep_check_repository (env : Env) (cfg : Config) (s : SysState) :
    StageStep s ((check_repository env cfg s).2) := by
  unfold check_repository
  split
  · exact StageStep.refl s
  · have hbase := (stageStep_log "Running weekly integrity check..." s
      (by decide)).trans (stageStep_spawn ["check", cfg.repository.path] none _)
    cases env.checkOutcome with
    | spawnErr e => exact hbase
    | completed st =>
      dsimp only
      split
      · exact hbase
      · exact hbase.trans (stageStep_log _ _ (by decide))

lemma stageStep_andThen {s : SysState} {r : Except String Unit × SysState}
    {f : SysState → Except String Unit × SysState}
    (h1 : StageStep s r.2) (h2 : ∀ t, StageStep t (f t).2) :
    StageStep s ((andThen r f).2) := by
  rcases r with ⟨res, t⟩
  cases res with
  | error e => exact h1
  | ok u => exact StageStep.trans h1 (h2 t)

lemma stageStep_inner (env : Env) (cfg : Config) (s : SysState) :
    StageStep s ((run_backup_cycle_inner env cfg s).2) := by
  unfold run_backup_cycle_inner
  refine stageStep_andThen (stageStep_open_log env s) fun t1 => ?_
  refine stageStep_andThen (stageStep_create_backup env cfg t1) fun t2 => ?_
  refine stageStep_andThen (stageStep_prune_backups env cfg t2) fun t3 => ?_
  refine stageStep_andThen (stageStep_compact_repository env cfg t3) fun t4 => ?_
  refine stageStep_andThen (stageStep_check_repository env cfg t4) fun t5 => ?_
  exact stageStep_log "Backup cycle complete" t5 (by decide)

lemma isPrefixOf_self_append (p m : List Char) :
    List.isPrefixOf p (p ++ m) = true := by
  induction p with
  | nil => simp [List.isPrefixOf]
  | cons x xs ih => simp [List.isPrefixOf, ih]

lemma toList_append (a b : String) : (a ++ b).toList = a.toList ++ b.toList := by
  simp [String.toList, String.data_append]

lemma isERRORLine_error (e : String) :
    isERRORLine ("ERROR: " ++ e) = true := by
  unfold isERRORLine strStartsWith
  rw [toList_append]
  exact isPrefixOf_self_append _ _

lemma strStartsWith_self_append (p m : String) :
    strStartsWith p (p ++ m) = true := by
  unfold strStartsWith
  rw [toList_append]
  exact isPrefixOf_self_append _ _

/-- Does `pat` occur as a contiguous slice of `l`? -/
def hasSlice (pat : List Char) : List Char → Bool
  | [] => pat.isEmpty
  | c :: t => List.isPrefixOf pat (c :: t) || hasSlice pat t

/-- Does `pat` occur as a contiguous substring of `s`? -/
def strContains (s pat : String) : Bool :=
  hasSlice pat.toList s.toList

/-- The state `run_backup_cycle` holds right before releasing the lock,
as a function of the inner cycle's result: on failure the `ERROR:` log
line plus the notification dispatch, on success the inner state as is. -/
def postState (env : Env) (cfg : Config) (r : Except String Unit × SysState) :
    SysState :=
  match r.1 with
  | .error e => send_failure_notification env cfg e (log ("ERROR: " ++ e) r.2)
  | .ok _ => r.2

lemma run_backup_cycle_eq (env : Env) (cfg : Config) (s : SysState)
    (h0 : s.lockExists = false) (h1 : env.createLockErr = none) :
    run_backup_cycle env cfg s =
      ((run_backup_cycle_inner env cfg { s with lockExists := true }).1,
        remove_lock (postState env cfg
          (run_backup_cycle_inner env cfg { s with lockExists := true }))) := by
  have hc : check_lock cfg s = .ok () := by simp [check_lock, h0]
  have hl : create_lock env s = (.ok (), { s with lockExists := true }) := by
    simp [create_lock, h1]
  unfold run_backup_cycle
  rw [hc, hl]
  cases hr : (run_backup_cycle_inner env cfg { s with lockExists := true }).1 <;>
    simp [postState, hr]

lemma log_logLines (m : String) (s : SysState) :
    (log m s).logLines = s.logLines ++ [m] := rfl

lemma sfn_lockExists (env : Env) (cfg : Config) (e : String) (s : SysState) :
    (send_failure_notification env cfg e s).lockExists = s.lockExists := by
  unfold send_failure_notification
  dsimp only
  split <;> rfl

lemma sfn_lockRemovals (env : Env) (cfg : Config) (e : String) (s : SysState) :
    (send_failure_notification env cfg e s).lockRemovals = s.lockRemovals := by
  unfold send_failure_notification
  dsimp only
  split <;> rfl

lemma sfn_logLines (env : Env) (cfg : Config) (e : String) (s : SysState) :
    (send_failure_notification env cfg e s).logLines = s.logLines := by
  unfold send_failure_notification
  dsimp only
  split <;> rfl

lemma sfn_notifyCalls (env : Env) (cfg : Config) (e : String) (s : SysState) :
    (send_failure_notification env cfg e s).notifyCalls =
      s.notifyCalls ++ [e] := by
  unfold send_failure_notification
  dsimp only
  split <;> rfl

lemma postState_lockRemovals (env : Env) (cfg : Config)
    (r : Except String Unit × SysState) :
    (postState env cfg r).lockRemovals = r.2.lockRemovals := by
  unfold postState
  cases r.1 with
  | error e => rw [sfn_lockRemovals]; rfl
  | ok u => rfl

lemma create_backup_invocations (env : Env) (cfg : Config) (s : SysState) :
    ((create_backup env cfg s).2).invocations =
      s.invocations ++ [⟨"borg",
        createArgs cfg (cfg.repository.path ++ "::" ++ archiveName env), none⟩] := by
  unfold create_backup
  cases env.createOutcome with
  | spawnErr e => simp [log, spawn]
  | completed st =>
    dsimp only
    split
    · simp [log, spawn]
    · split <;> simp [log, spawn]

lemma prune_backups_invocations (env : Env) (cfg : Config) (s : SysState) :
    ((prune_backups env cfg s).2).invocations =
      s.invocations ++ [⟨"borg", pruneArgs env cfg, none⟩] := by
  unfold prune_backups
  cases env.pruneOutcome with
  | spawnErr e => simp [log, spawn]
  | completed st =>
    dsimp only
    split <;> simp [log, spawn]

lemma flatten_filter_enabled (l : List BackupJob) :
    ((l.filter (fun j => j.enabled)).map
      (fun j => j.source :: (j.exclude.map (fun p => ["--exclude", p])).flatten)).flatten
      = (l.map jobArgs).flatten := by
  induction l with
  | nil => rfl
  | cons j t ih =>
    cases hj : j.enabled <;>
      simp [List.filter_cons, jobArgs, hj, ih]

/-- Sample local time used by the concrete witnesses. -/
def time0 : LocalTime :=
  { year := 2026, month := 10, day := 12, hour := 3, minute := 4, second := 5 }

/-- Sample configuration: the one enabled job of the spec's concrete
scenario A, `lz4` compression, no global exclusions, notifications
enabled, auto-compact on, check day Sunday. -/
def cfg0 : Config :=
  { repository := { path := "/tmp/borg", encryption := "repokey" }
    jobs := [{ name := "system-config", source := "/etc", destination := "system"
               enabled := true, exclude := ["*.tmp"] }]
    exclusions := []
    compression := "lz4"
    options := { one_file_system := true, exclude_caches := true
                 show_progress := false, show_stats := true }
    retention := { within := "24H", hourly := 24, daily := 7, weekly := 4
                   monthly := 6, yearly := 1 }
    notifications := { enabled := true, email := "ops@example.com" }
    logging := { log_file := "/var/log/borg.log", lock_file := "/var/run/borg.lock" }
    maintenance := { check_day := 7, auto_compact := true }
    security := { passphrase_file := "/etc/borg/passphrase" } }

/-- Sample environment: every operation succeeds, today is Sunday. -/
def env0 : Env :=
  { hostname := "host1"
    now := time0
    daysFromMonday := (6 : Fin 7)
    openLogErr := none
    createLockErr := none
    createOutcome := .completed (some 0)
    pruneOutcome := .completed (some 0)
    compactOutcome := .completed (some 0)
    checkOutcome := .completed (some 0)
    mailOutcome := .completed (some 0) }

/-- Environment in which `borg create` exits with code 2. -/
def envFail : Env := { env0 with createOutcome := .completed (some 2) }

/-- Environment in which `borg prune` exits with code 1 (warning exit). -/
def envWarn : Env := { env0 with pruneOutcome := .completed (some 1) }

/-- Configuration with notifications disabled. -/
def cfgD : Config :=
  { cfg0 with notifications := { enabled := false, email := "ops@example.com" } }

/-- Initial state: no lock marker, nothing logged, no subprocess run. -/
def s0 : SysState :=
  { lockExists := false, logOpen := false, logLines := []
    invocations := [], notifyCalls := [], lockRemovals := 0 }

/-- State in which the lock marker already exists. -/
def sLocked : SysState := { s0 with lockExists := true }

/-- Configuration whose `check_day` is 0 (weekly check disabled). -/
def cfgNoCheck : Config :=
  { cfg0 with maintenance := { check_day := 0, auto_compact := true } }

/-- A disabled backup job, used to witness claim C6. -/
def jDis : BackupJob :=
  { name := "scratch", source := "/scratch", destination := "scratch"
    enabled := false, exclude := ["*.iso"] }

/-- Modelled from the spec (section 4.5, transition 3): the `create`
argument list as the spec words it — option flags gated by the config,
`--compression=<codec>`, global exclusions first, the explicit
`repository::archive-name` target, then every enabled job's source path
immediately followed by that job's own exclusion patterns.  Compared
against `createArgs`, which is transcribed from the source. -/
def createArgsSpec (cfg : Config) (archivePath : String) : List String :=
  ["create"]
    ++ (if cfg.options.show_stats then ["--stats"] else [])
    ++ (if cfg.options.show_progress then ["--progress"] else [])
    ++ (if cfg.options.one_file_system then ["--one-file-system"] else [])
    ++ (if cfg.options.exclude_caches then ["--exclude-caches"] else [])
    ++ ["--compression=" ++ cfg.compression]
    ++ (cfg.exclusions.map (fun p => ["--exclude", p])).flatten
    ++ [archivePath]
    ++ ((cfg.jobs.filter (fun j => j.enabled)).map
        (fun j => j.source :: (j.exclude.map (fun p => ["--exclude", p])).flatten)).flatten

lemma andThen_ok (u : Unit) (t : SysState)
    (f : SysState → Except String Unit × SysState) :
    andThen (.ok u, t) f = f t := rfl

lemma andThen_error (e : String) (t : SysState)
    (f : SysState → Except String Unit × SysState) :
    andThen (.error e, t) f = (.error e, t) := rfl

lemma remove_lock_logLines (s : SysState) :
    (remove_lock s).logLines = s.logLines := rfl

lemma remove_lock_notifyCalls (s : SysState) :
    (remove_lock s).notifyCalls = s.notifyCalls := rfl

lemma remove_lock_invocations (s : SysState) :
    (remove_lock s).invocations = s.invocations := rfl

lemma log_notifyCalls (m : String) (s : SysState) :
    (log m s).notifyCalls = s.notifyCalls := rfl

lemma log_invocations (m : String) (s : SysState) :
    (log m s).invocations = s.invocations := rfl

lemma sfn_invocations (env : Env) (cfg : Config) (e : String) (s : SysState) :
    (send_failure_notification env cfg e s).invocations =
      s.invocations ++ (if cfg.notifications.enabled then
        [⟨"mail", ["-s", "Backup Failure on " ++ env.hostname,
          cfg.notifications.email], some ("Borg backup failed: " ++ e)⟩]
      else []) := by
  unfold send_failure_notification
  dsimp only
  cases h : cfg.notifications.enabled <;> simp [h, spawn]

lemma check_repository_invocations (env : Env) (cfg : Config) (s : SysState)
    (h : ¬(cfg.maintenance.check_day = 0 ∨ today env ≠ cfg.maintenance.check_day)) :
    ((check_repository env cfg s).2).invocations =
      s.invocations ++ [⟨"borg", ["check", cfg.repository.path], none⟩] := by
  unfold check_repository
  rw [if_neg h]
  cases env.checkOutcome with
  | spawnErr e => simp [log, spawn]
  | completed st =>
    dsimp only
    split <;> simp [log, spawn]

/-- Claim C1: once `run_backup_cycle` has created the lock marker (the
marker was absent and the marker write succeeded), the marker is removed
exactly once before the call returns, whichever way the log open and the
four stages turn out: the final state has no lock marker and records
exactly one more `remove_lock` call. -/
theorem lock_released_on_every_path (env : Env) (cfg : Config) (s : SysState)
    (h0 : s.lockExists = false) (h1 : env.createLockErr = none) :
    ((run_backup_cycle env cfg s).2).lockExists = false ∧
    ((run_backup_cycle env cfg s).2).lockRemovals = s.lockRemovals + 1 := by
  rw [run_backup_cycle_eq env cfg s h0 h1]
  refine ⟨rfl, ?_⟩
  show (postState env cfg _).lockRemovals + 1 = s.lockRemovals + 1
  rw [postState_lockRemovals,
    (stageStep_inner env cfg { s with lockExists := true }).2.1]

/-- Claim C1 witness: the fully successful sample cycle releases the lock
and counts exactly one removal. -/
theorem lock_released_on_every_path_witness :
    ((run_backup_cycle env0 cfg0 s0).2).lockExists = false ∧
    ((run_backup_cycle env0 cfg0 s0).2).lockRemovals = s0.lockRemovals + 1 :=
  lock_released_on_every_path env0 cfg0 s0 rfl rfl

/-- Claim C8: when the lock marker already exists, `run_backup_cycle`
returns the lock-held error immediately and the state is completely
unchanged — no log open or write, no subprocess attempt, no notification. -/
theorem lock_preexists_immediate_error (env : Env) (cfg : Config)
    (s : SysState) (h : s.lockExists = true) :
    run_backup_cycle env cfg s =
      (.error ("Lock file exists at " ++ cfg.logging.lock_file ++
        ". Another backup may be running."), s) := by
  unfold run_backup_cycle
  have hc : check_lock cfg s =
      .error ("Lock file exists at " ++ cfg.logging.lock_file ++
        ". Another backup may be running.") := by
    simp [check_lock, h]
  rw [hc]

/-- Claim C8 witness: the sample cycle against a pre-existing lock. -/
theorem lock_preexists_immediate_error_witness :
    run_backup_cycle env0 cfg0 sLocked =
      (.error ("Lock file exists at " ++ cfg0.logging.lock_file ++
        ". Another backup may be running."), sLocked) :=
  lock_preexists_immediate_error env0 cfg0 sLocked rfl

/-- Claim C10: the lock-held exit path never calls `remove_lock`, so a
marker created by another invocation is left in place: the marker still
exists afterwards and the removal counter is unchanged. -/
theorem lock_held_marker_untouched (env : Env) (cfg : Config) (s : SysState)
    (h : s.lockExists = true) :
    ((run_backup_cycle env cfg s).2).lockExists = true ∧
    ((run_backup_cycle env cfg s).2).lockRemovals = s.lockRemovals := by
  unfold run_backup_cycle
  have hc : check_lock cfg s =
      .error ("Lock file exists at " ++ cfg.logging.lock_file ++
        ". Another backup may be running.") := by
    simp [check_lock, h]
  rw [hc]
  exact ⟨h, rfl⟩

/-- Claim C10 witness: a pre-existing marker survives the refused cycle. -/
theorem lock_held_marker_untouched_witness :
    ((run_backup_cycle env0 cfg0 sLocked).2).lockExists = true ∧
    ((run_backup_cycle env0 cfg0 sLocked).2).lockRemovals = sLocked.lockRemovals :=
  lock_held_marker_untouched env0 cfg0 sLocked rfl

/-- Claim C6: a disabled job contributes nothing to the `create` argument
list, regardless of its position: removing it from the job list leaves
the arguments unchanged. -/
theorem disabled_job_contributes_nothing (cfg : Config)
    (pre post : List BackupJob) (j : BackupJob) (hj : j.enabled = false)
    (archivePath : String) :
    createArgs { cfg with jobs := pre ++ j :: post } archivePath =
      createArgs { cfg with jobs := pre ++ post } archivePath := by
  unfold createArgs
  simp [List.map_append, List.flatten_append, jobArgs, hj]

/-- Claim C6 witness: prepending a disabled job to the sample job list
leaves the `create` arguments unchanged. -/
theorem disabled_job_contributes_nothing_witness :
    createArgs { cfg0 with jobs := [] ++ jDis :: cfg0.jobs } "/tmp/borg::a" =
      createArgs { cfg0 with jobs := [] ++ cfg0.jobs } "/tmp/borg::a" :=
  disabled_job_contributes_nothing cfg0 [] cfg0.jobs jDis rfl "/tmp/borg::a"

/-- Claim C7: the archive target built by `create_backup` is
`repo::hostname-YYYY-MM-DD-HHMMSS` with the orchestrator's hostname, the
prune invocation passes `--prefix=hostname-` with that same hostname as
its third argument, and that prune filter string (without the flag) is a
prefix of every archive name this installation creates. -/
theorem archive_name_prune_scope (env : Env) (cfg : Config) (s : SysState) :
    ((create_backup env cfg s).2).invocations =
      s.invocations ++ [⟨"borg", createArgs cfg (cfg.repository.path ++ "::" ++
        (env.hostname ++ "-" ++ fmtTimestamp env.now)), none⟩] ∧
    ((prune_backups env cfg s).2).invocations =
      s.invocations ++ [⟨"borg", pruneArgs env cfg, none⟩] ∧
    (pruneArgs env cfg)[2]? = some ("--prefix=" ++ env.hostname ++ "-") ∧
    strStartsWith (env.hostname ++ "-") (archiveName env) = true := by
  refine ⟨create_backup_invocations env cfg s,
    prune_backups_invocations env cfg s, rfl, ?_⟩
  show strStartsWith (env.hostname ++ "-")
    ((env.hostname ++ "-") ++ fmtTimestamp env.now) = true
  exact strStartsWith_self_append _ _

/-- Claim C3: the invocation recorded by `create_backup` carries exactly
the argument order the spec describes (option flags, compression, global
exclusions, `repo::archive` target, then each enabled job's source
immediately followed by its own exclusions), and in the spec's concrete
scenario A the arguments end with
`--compression=lz4 repo::archive /etc --exclude *.tmp`. -/
theorem create_argument_order (env : Env) (cfg : Config) (s : SysState) :
    ((create_backup env cfg s).2).invocations =
      s.invocations ++ [⟨"borg",
        createArgsSpec cfg (cfg.repository.path ++ "::" ++ archiveName env), none⟩] ∧
    List.isSuffixOf
      ["--compression=lz4", "/tmp/borg::" ++ archiveName env0, "/etc",
        "--exclude", "*.tmp"]
      (createArgs cfg0 ("/tmp/borg::" ++ archiveName env0)) = true := by
  constructor
  · rw [create_backup_invocations]
    have h : createArgsSpec cfg (cfg.repository.path ++ "::" ++ archiveName env)
        = createArgs cfg (cfg.repository.path ++ "::" ++ archiveName env) := by
      unfold createArgsSpec createArgs
      rw [flatten_filter_enabled]
    rw [h]
  · decide

/-- Claim C5: with `check_day = 0` the check stage never invokes the
check process and returns success, for any current weekday; with
`check_day = k` in 1..7 the check process is invoked exactly when today's
ISO weekday equals k. -/
theorem check_day_schedule (env : Env) (cfg : Config) (s : SysState) :
    (cfg.maintenance.check_day = 0 →
      check_repository env cfg s = (.ok (), s)) ∧
    (1 ≤ cfg.maintenance.check_day → cfg.maintenance.check_day ≤ 7 →
      ((((check_repository env cfg s).2).invocations ≠ s.invocations) ↔
        today env = cfg.maintenance.check_day) ∧
      (today env ≠ cfg.maintenance.check_day →
        check_repository env cfg s = (.ok (), s))) := by
  constructor
  · intro h
    unfold check_repository
    rw [if_pos (Or.inl h)]
  · intro h1 _h7
    have hskip : today env ≠ cfg.maintenance.check_day →
        check_repository env cfg s = (.ok (), s) := by
      intro hne
      unfold check_repository
      rw [if_pos (Or.inr hne)]
    refine ⟨⟨?_, ?_⟩, hskip⟩
    · intro hchanged
      by_contra hne
      rw [hskip hne] at hchanged
      exact hchanged rfl
    · intro heq
      have hcond : ¬(cfg.maintenance.check_day = 0 ∨
          today env ≠ cfg.maintenance.check_day) := by
        push_neg
        exact ⟨by omega, heq⟩
      rw [check_repository_invocations env cfg s hcond]
      intro habs
      have := congrArg List.length habs
      simp at this

/-- Claim C5 witness: the sample config checks on Sunday and the
`check_day = 0` config never checks. -/
theorem check_day_schedule_witness :
    check_repository env0 cfgNoCheck s0 = (.ok (), s0) ∧
    (((check_repository env0 cfg0 s0).2).invocations ≠ s0.invocations) :=
  ⟨(check_day_schedule env0 cfgNoCheck s0).1 rfl,
    ((check_day_schedule env0 cfg0 s0).2 (by decide) (by decide)).1.mpr rfl⟩

/-- Claim C2 (amended): each of the four stages treats exit code 0 or 1
(and only those; a signal counts as code 2) as success so the cycle
continues, and exit code 2 or more as a hard failure that halts the
remaining stages; the distinct warnings log line for exit code 1 exists
only for the create stage, while prune, compact and check log their one
completion line for both exit codes 0 and 1. -/
theorem stage_exit_code_policy (env : Env) (cfg : Config) (s : SysState) :
    (∀ st, env.createOutcome = .completed st →
      (((create_backup env cfg s).1 = .ok ()) ↔ exitCodeOf st < 2) ∧
      (exitCodeOf st = 1 →
        ((create_backup env cfg s).2).logLines = s.logLines ++
          ["Starting backup: " ++ archiveName env,
           "Backup created with warnings (some files may have been skipped)"]) ∧
      (exitCodeOf st ≠ 1 → exitCodeOf st < 2 →
        ((create_backup env cfg s).2).logLines = s.logLines ++
          ["Starting backup: " ++ archiveName env,
           "Backup created successfully"])) ∧
    (∀ st, env.pruneOutcome = .completed st →
      (((prune_backups env cfg s).1 = .ok ()) ↔ exitCodeOf st < 2) ∧
      (exitCodeOf st < 2 →
        ((prune_backups env cfg s).2).logLines = s.logLines ++
          ["Pruning old backups...", "Prune completed"])) ∧
    (cfg.maintenance.auto_compact = true →
      ∀ st, env.compactOutcome = .completed st →
      (((compact_repository env cfg s).1 = .ok ()) ↔ exitCodeOf st < 2) ∧
      (exitCodeOf st < 2 →
        ((compact_repository env cfg s).2).logLines = s.logLines ++
          ["Compacting repository...", "Compact completed"])) ∧
    (¬(cfg.maintenance.check_day = 0 ∨ today env ≠ cfg.maintenance.check_day) →
      ∀ st, env.checkOutcome = .completed st →
      (((check_repository env cfg s).1 = .ok ()) ↔ exitCodeOf st < 2) ∧
      (exitCodeOf st < 2 →
        ((check_repository env cfg s).2).logLines = s.logLines ++
          ["Running weekly integrity check...", "Integrity check passed"])) ∧
    (env.openLogErr = none → ∀ e,
      (create_backup env cfg { s with logOpen := true }).1 = .error e →
      (run_backup_cycle_inner env cfg s).1 = .error e ∧
      (run_backup_cycle_inner env cfg s).2 =
        (create_backup env cfg { s with logOpen := true }).2) := by
  refine ⟨?_, ?_, ?_, ?_, ?_⟩
  · intro st hst
    unfold create_backup
    rw [hst]
    dsimp only
    by_cases h2 : 2 ≤ exitCodeOf st
    · rw [if_pos h2]
      refine ⟨by simp; omega, fun h1 => by omega, fun _ hlt => by omega⟩
    · rw [if_neg h2]
      by_cases h1 : exitCodeOf st = 1
      · rw [if_pos h1]
        refine ⟨by simp; omega, fun _ => by simp [log, spawn],
          fun hne _ => absurd h1 hne⟩
      · rw [if_neg h1]
        refine ⟨by simp; omega, fun h => absurd h h1,
          fun _ _ => by simp [log, spawn]⟩
  · intro st hst
    unfold prune_backups
    rw [hst]
    dsimp only
    by_cases h2 : 2 ≤ exitCodeOf st
    · rw [if_pos h2]
      exact ⟨by simp; omega, fun hlt => by omega⟩
    · rw [if_neg h2]
      exact ⟨by simp; omega, fun _ => by simp [log, spawn]⟩
  · intro hauto st hst
    unfold compact_repository
    rw [hauto]
    dsimp only
    rw [hst]
    dsimp only
    by_cases h2 : 2 ≤ exitCodeOf st
    · rw [if_pos h2]
      exact ⟨by simp; omega, fun hlt => by omega⟩
    · rw [if_neg h2]
      exact ⟨by simp; omega, fun _ => by simp [log, spawn]⟩
  · intro hcond st hst
    unfold check_repository
    rw [if_neg hcond, hst]
    dsimp only
    by_cases h2 : 2 ≤ exitCodeOf st
    · rw [if_pos h2]
      exact ⟨by simp; omega, fun hlt => by omega⟩
    · rw [if_neg h2]
      exact ⟨by simp; omega, fun _ => by simp [log, spawn]⟩
  · intro hopen e hfail
    have hopen' : open_log env s = (.ok (), { s with logOpen := true }) := by
      simp [open_log, hopen]
    unfold run_backup_cycle_inner
    rw [hopen', andThen_ok]
    rcases hc : create_backup env cfg { s with logOpen := true } with ⟨res, t⟩
    rw [hc] at hfail
    dsimp only at hfail
    subst hfail
    rw [andThen_error]
    exact ⟨rfl, rfl⟩

/-- Claim C2 counterexample: `borg prune` exiting with code 1 (warning
exit) succeeds but logs the plain `Prune completed` line — no log line
mentioning warnings is produced, so the claimed uniform
success-with-warnings log line does not exist for the prune stage. -/
theorem stage_exit_code_policy_counterexample :
    envWarn.pruneOutcome = .completed (some 1) ∧
    (prune_backups envWarn cfg0 s0).1 = .ok () ∧
    ((prune_backups envWarn cfg0 s0).2).logLines =
      ["Pruning old backups...", "Prune completed"] ∧
    (((prune_backups envWarn cfg0 s0).2).logLines.filter
      (fun l => strContains l "warning" || strContains l "Warning")) = [] := by
  refine ⟨rfl, rfl, rfl, ?_⟩
  decide

/-- Claim C2 witness: create succeeds at exit code 0, and a create
failure with exit code 2 halts the inner cycle with the create error. -/
theorem stage_exit_code_policy_witness :
    (create_backup env0 cfg0 s0).1 = .ok () ∧
    (run_backup_cycle_inner envFail cfg0 s0).1 =
      .error ("borg create failed with exit code " ++ toString (2 : Int)) := by
  constructor
  · exact ((stage_exit_code_policy env0 cfg0 s0).1 (some 0) rfl).1.mpr (by decide)
  · exact (((stage_exit_code_policy envFail cfg0 s0).2.2.2.2) rfl
      ("borg create failed with exit code " ++ toString (2 : Int)) rfl).1

/-- Claim C4: when the inner cycle (log open or any stage) returns a hard
failure, `run_backup_cycle` appends exactly one `ERROR:` log line, calls
the failure-notification dispatcher with that error, removes the lock
marker, and returns the same error; and when create exits with code 2
the only borg subprocess attempted is the create one — prune, compact
and check are never invoked. -/
theorem failure_path_handling (env : Env) (cfg : Config) (s : SysState)
    (h0 : s.lockExists = false) (h1 : env.createLockErr = none) :
    (∀ e, (run_backup_cycle_inner env cfg { s with lockExists := true }).1 =
        .error e →
      (run_backup_cycle env cfg s).1 = .error e ∧
      (((run_backup_cycle env cfg s).2).logLines.drop s.logLines.length).countP
        (fun l => isERRORLine l) = 1 ∧
      ((run_backup_cycle env cfg s).2).notifyCalls = s.notifyCalls ++ [e] ∧
      ((run_backup_cycle env cfg s).2).lockExists = false) ∧
    (env.openLogErr = none → ∀ c : Int,
      env.createOutcome = .completed (some c) → 2 ≤ c →
      (run_backup_cycle env cfg s).1 =
        .error ("borg create failed with exit code " ++ toString c) ∧
      ((run_backup_cycle env cfg s).2).invocations =
        (s.invocations ++ [⟨"borg", createArgs cfg
          (cfg.repository.path ++ "::" ++ archiveName env), none⟩]) ++
        (if cfg.notifications.enabled then
          [⟨"mail", ["-s", "Backup Failure on " ++ env.hostname,
            cfg.notifications.email],
            some ("Borg backup failed: " ++
              ("borg create failed with exit code " ++ toString c))⟩]
        else [])) := by
  obtain ⟨hlk, hrm, hnt, ⟨ls, hls, hcount⟩, ⟨invs, hinvs, hprog⟩⟩ :=
    stageStep_inner env cfg { s with lockExists := true }
  rw [run_backup_cycle_eq env cfg s h0 h1]
  constructor
  · intro e he
    have hpost : postState env cfg
        (run_backup_cycle_inner env cfg { s with lockExists := true }) =
        send_failure_notification env cfg e (log ("ERROR: " ++ e)
          (run_backup_cycle_inner env cfg { s with lockExists := true }).2) := by
      unfold postState
      rw [he]
    refine ⟨he, ?_, ?_, rfl⟩
    · show ((remove_lock _).logLines.drop s.logLines.length).countP _ = 1
      rw [remove_lock_logLines, hpost, sfn_logLines, log_logLines, hls]
      show ((s.logLines ++ ls ++ ["ERROR: " ++ e]).drop s.logLines.length).countP
        (fun l => isERRORLine l) = 1
      rw [List.append_assoc, List.drop_left, List.countP_append, hcount]
      simp [List.countP_cons, isERRORLine_error]
    · show (remove_lock _).notifyCalls = s.notifyCalls ++ [e]
      rw [remove_lock_notifyCalls, hpost, sfn_notifyCalls, log_notifyCalls, hnt]
  · intro hopen c hcr h2c
    have hopen' : open_log env { s with lockExists := true } =
        (.ok (), { s with lockExists := true, logOpen := true }) := by
      simp [open_log, hopen]
    have hcreate : create_backup env cfg
        { s with lockExists := true, logOpen := true } =
        (.error ("borg create failed with exit code " ++ toString c),
          spawn ⟨"borg", createArgs cfg
            (cfg.repository.path ++ "::" ++ archiveName env), none⟩
            (log ("Starting backup: " ++ archiveName env)
              { s with lockExists := true, logOpen := true })) := by
      unfold create_backup
      rw [hcr]
      dsimp only
      rw [if_pos (show (2 : Int) ≤ exitCodeOf (some c) from h2c)]
      rfl
    have hinner : run_backup_cycle_inner env cfg { s with lockExists := true } =
        (.error ("borg create failed with exit code " ++ toString c),
          spawn ⟨"borg", createArgs cfg
            (cfg.repository.path ++ "::" ++ archiveName env), none⟩
            (log ("Starting backup: " ++ archiveName env)
              { s with lockExists := true, logOpen := true })) := by
      unfold run_backup_cycle_inner
      rw [hopen', andThen_ok, hcreate, andThen_error]
    rw [hinner]
    refine ⟨rfl, ?_⟩
    show (remove_lock (postState env cfg _)).invocations = _
    rw [remove_lock_invocations]
    unfold postState
    dsimp only
    rw [sfn_invocations, log_invocations]
    simp [spawn, log]

/-- Claim C4 witness: create exiting with code 2 at the sample inputs. -/
theorem failure_path_handling_witness :
    (run_backup_cycle envFail cfg0 s0).1 =
      .error ("borg create failed with exit code " ++ toString (2 : Int)) ∧
    (((run_backup_cycle envFail cfg0 s0).2).logLines.drop
      s0.logLines.length).countP (fun l => isERRORLine l) = 1 ∧
    ((run_backup_cycle envFail cfg0 s0).2).notifyCalls =
      s0.notifyCalls ++ ["borg create failed with exit code " ++ toString (2 : Int)] ∧
    ((run_backup_cycle envFail cfg0 s0).2).invocations =
      (s0.invocations ++ [⟨"borg", createArgs cfg0
        (cfg0.repository.path ++ "::" ++ archiveName envFail), none⟩]) ++
      (if cfg0.notifications.enabled then
        [⟨"mail", ["-s", "Backup Failure on " ++ envFail.hostname,
          cfg0.notifications.email],
          some ("Borg backup failed: " ++
            ("borg create failed with exit code " ++ toString (2 : Int)))⟩]
      else []) := by
  have h := failure_path_handling envFail cfg0 s0 rfl rfl
  have ha := h.1 ("borg create failed with exit code " ++ toString (2 : Int)) rfl
  have hb := h.2 rfl 2 rfl (by decide)
  exact ⟨ha.1, ha.2.1, ha.2.2.1, hb.2⟩

/-- Claim C9: with notifications disabled, `send_failure_notification`
changes nothing but the ghost dispatcher trace — in particular it spawns
no mail subprocess; and a failing cycle still logs the `ERROR:` line and
removes the lock, but attempts no mail invocation. -/
theorem notifications_disabled_no_mail (env : Env) (cfg : Config)
    (s : SysState) (hdis : cfg.notifications.enabled = false) :
    (∀ e, send_failure_notification env cfg e s =
      { s with notifyCalls := s.notifyCalls ++ [e] }) ∧
    (s.lockExists = false → env.createLockErr = none → ∀ e,
      (run_backup_cycle env cfg s).1 = .error e →
      ((run_backup_cycle env cfg s).2).lockExists = false ∧
      ("ERROR: " ++ e) ∈ ((run_backup_cycle env cfg s).2).logLines ∧
      ((run_backup_cycle env cfg s).2).invocations.countP
        (fun i => i.program == "mail") =
      s.invocations.countP (fun i => i.program == "mail")) := by
  constructor
  · intro e
    unfold send_failure_notification
    dsimp only
    rw [hdis]
    rfl
  · intro h0 h1 e
    obtain ⟨hlk, hrm, hnt, ⟨ls, hls, hcount⟩, ⟨invs, hinvs, hprog⟩⟩ :=
      stageStep_inner env cfg { s with lockExists := true }
    rw [run_backup_cycle_eq env cfg s h0 h1]
    intro he
    dsimp only at he
    have hpost : postState env cfg
        (run_backup_cycle_inner env cfg { s with lockExists := true }) =
        send_failure_notification env cfg e (log ("ERROR: " ++ e)
          (run_backup_cycle_inner env cfg { s with lockExists := true }).2) := by
      unfold postState
      rw [he]
    refine ⟨rfl, ?_, ?_⟩
    · show ("ERROR: " ++ e) ∈ (remove_lock _).logLines
      rw [remove_lock_logLines, hpost, sfn_logLines, log_logLines]
      exact List.mem_append_right _ (List.mem_singleton.mpr rfl)
    · show (remove_lock _).invocations.countP _ = _
      rw [remove_lock_invocations, hpost, sfn_invocations, hdis, log_invocations,
        hinvs]
      have hz : invs.countP (fun (i : Invocation) => i.program == "mail") = 0 := by
        rw [List.countP_eq_zero]
        intro i hi
        rw [hprog i hi]
        decide
      simp [List.countP_append, hz]

/-- Claim C9 witness: the failing sample cycle with notifications
disabled. -/
theorem notifications_disabled_no_mail_witness :
    send_failure_notification envFail cfgD "boom" s0 =
      { s0 with notifyCalls := s0.notifyCalls ++ ["boom"] } ∧
    ((run_backup_cycle envFail cfgD s0).2).lockExists = false ∧
    ("ERROR: " ++ ("borg create failed with exit code " ++ toString (2 : Int))) ∈
      ((run_backup_cycle envFail cfgD s0).2).logLines ∧
    ((run_backup_cycle envFail cfgD s0).2).invocations.countP
      (fun i => i.program == "mail") =
    s0.invocations.countP (fun i => i.program == "mail") := by
  have h := notifications_disabled_no_mail envFail cfgD s0 rfl
  have h2 := h.2 rfl rfl
    ("borg create failed with exit code " ++ toString (2 : Int)) rfl
  exact ⟨h.1 "boom", h2.1, h2.2.1, h2.2.2⟩

end Borg
